import Mathlib

/-!
Verification development for the `segregation` package, covering the
decomposition engine (`segregation/decomposition/decompose_segregation.py`),
the single- and two-sample inference engines
(`segregation/inference/inference_wrappers.py`) and the multigroup
dissimilarity index (`segregation/multigroup/multi_dissim.py`).

Python/numpy floating-point values are modelled by `NumVal`: a rational
number, `nan`, or a signed infinity, with IEEE-style propagation rules for
the arithmetic the sources perform (in particular, integer-count division
by zero yields `nan`/infinities rather than raising, matching numpy's
true-division semantics under the default error state).  Python exceptions
are modelled by `Except String`.  Pandas data frames are modelled as named
columns of `NumVal` cells.
-/

set_option maxRecDepth 4000

/-- Model of a numpy/python float64 value: finite rational, NaN or a signed
infinity. -/
inductive NumVal : Type where
  | nan : NumVal
  | pinf : NumVal
  | ninf : NumVal
  | fin : ℚ → NumVal
  deriving DecidableEq, Repr

/-- `True` exactly for finite values; `!isFin` is numpy's `isinf | isnan`. -/
def NumVal.isFin : NumVal → Bool
  | .fin _ => true
  | _ => false

/-- IEEE-style addition: NaN propagates, opposite infinities give NaN. -/
def NumVal.add : NumVal → NumVal → NumVal
  | .nan, _ => .nan
  | _, .nan => .nan
  | .pinf, .ninf => .nan
  | .ninf, .pinf => .nan
  | .pinf, _ => .pinf
  | _, .pinf => .pinf
  | .ninf, _ => .ninf
  | _, .ninf => .ninf
  | .fin a, .fin b => .fin (a + b)

/-- IEEE-style negation. -/
def NumVal.neg : NumVal → NumVal
  | .nan => .nan
  | .pinf => .ninf
  | .ninf => .pinf
  | .fin a => .fin (-a)

/-- IEEE-style subtraction, `a - b = a + (-b)`. -/
def NumVal.sub (x y : NumVal) : NumVal := x.add y.neg

/-- IEEE-style multiplication: NaN propagates, `0 * inf = NaN`. -/
def NumVal.mul : NumVal → NumVal → NumVal
  | .nan, _ => .nan
  | _, .nan => .nan
  | .pinf, .pinf => .pinf
  | .pinf, .ninf => .ninf
  | .ninf, .pinf => .ninf
  | .ninf, .ninf => .pinf
  | .pinf, .fin b => if 0 < b then .pinf else if b < 0 then .ninf else .nan
  | .fin a, .pinf => if 0 < a then .pinf else if a < 0 then .ninf else .nan
  | .ninf, .fin b => if 0 < b then .ninf else if b < 0 then .pinf else .nan
  | .fin a, .ninf => if 0 < a then .ninf else if a < 0 then .pinf else .nan
  | .fin a, .fin b => .fin (a * b)

/-- IEEE-style division; `0 / 0 = NaN`, `x / 0 = ±inf` for finite `x ≠ 0`,
matching numpy true division under the default error state (which warns but
does not raise).  Signed zeros are not modelled. -/
def NumVal.div : NumVal → NumVal → NumVal
  | .nan, _ => .nan
  | _, .nan => .nan
  | .pinf, .pinf => .nan
  | .pinf, .ninf => .nan
  | .ninf, .pinf => .nan
  | .ninf, .ninf => .nan
  | .pinf, .fin b => if 0 ≤ b then .pinf else .ninf
  | .ninf, .fin b => if 0 ≤ b then .ninf else .pinf
  | .fin _, .pinf => .fin 0
  | .fin _, .ninf => .fin 0
  | .fin a, .fin b =>
      if b = 0 then (if a = 0 then .nan else if 0 < a then .pinf else .ninf)
      else .fin (a / b)

/-- IEEE-style absolute value. -/
def NumVal.absV : NumVal → NumVal
  | .nan => .nan
  | .pinf => .pinf
  | .ninf => .pinf
  | .fin a => .fin |a|

/-- IEEE-style `≤` as a Boolean: comparisons involving NaN are false. -/
def NumVal.leb : NumVal → NumVal → Bool
  | .nan, _ => false
  | _, .nan => false
  | .ninf, _ => true
  | _, .ninf => false
  | .pinf, .pinf => true
  | .fin _, .pinf => true
  | .pinf, .fin _ => false
  | .fin a, .fin b => if a ≤ b then true else false

/-- Sequential left sum of a list of values, as numpy's `sum` over a 1-D
array (starting from `0`). -/
def NumVal.sumL (l : List NumVal) : NumVal := l.foldl NumVal.add (.fin 0)

/-- Round-half-to-even on rationals, as numpy's `round`. -/
def ratRoundHalfEven (a : ℚ) : ℤ :=
  let f := ⌊a⌋
  let r := a - (f : ℚ)
  if r < 1 / 2 then f
  else if 1 / 2 < r then f + 1
  else if f % 2 = 0 then f else f + 1

/-- Rounding of a float column entry to an integer (`round(0).astype(int)`);
non-finite values are propagated unchanged. -/
def NumVal.roundIntNV : NumVal → NumVal
  | .fin a => .fin ((ratRoundHalfEven a : ℤ) : ℚ)
  | x => x

/-- Rounding to the nearest non-negative integer, used for counterfactual
population counts; non-finite values are propagated unchanged. -/
def NumVal.roundNN : NumVal → NumVal
  | .fin a => .fin ((max 0 (ratRoundHalfEven a) : ℤ) : ℚ)
  | x => x

/-- The finite entries of a null sample, in order: the NaN/infinite filter
`x[~(isinf(x) | isnan(x))]` applied by both inference engines. -/
def filterFin (l : List NumVal) : List ℚ :=
  l.filterMap fun x => match x with
    | .fin q => some q
    | _ => none

/-- `(point_estimation < sample).sum()`: how many sample entries exceed the
point estimate. -/
def countAbove (l : List ℚ) (pt : ℚ) : ℕ :=
  (l.filter fun x => decide (pt < x)).length

/-- `(point_estimation > sample).sum()`: how many sample entries are below
the point estimate. -/
def countBelow (l : List ℚ) (pt : ℚ) : ℕ :=
  (l.filter fun x => decide (x < pt)).length

/-- The one-tailed p-value of `_infer_segregation`:
`sum(Estimates_Stars > point_estimation) / iterations_under_null`, where
`Estimates_Stars` is the already-filtered sample but the denominator is the
requested iteration count. -/
def pvalOneTailed (l : List ℚ) (pt : ℚ) (iters : ℕ) : NumVal :=
  NumVal.div (NumVal.fin (Nat.cast (countAbove l pt)))
    (NumVal.fin (Nat.cast iters))

/-- The two-tailed p-value of both engines:
`2 * min(aux1, aux2) / len(sample)` over the filtered sample. -/
def pvalTwoTailed (l : List ℚ) (pt : ℚ) : NumVal :=
  NumVal.div
    (NumVal.fin (2 * Nat.cast (min (countAbove l pt) (countBelow l pt))))
    (NumVal.fin (Nat.cast l.length))

/-- A pandas data frame: an ordered association list of named columns of
float cells. -/
structure DataFrame : Type where
  cols : List (String × List NumVal)
  deriving DecidableEq, Repr

/-- Column lookup, `none` when the column is absent. -/
def DataFrame.getCol (df : DataFrame) (name : String) : Option (List NumVal) :=
  (df.cols.find? fun c => c.1 == name).map Prod.snd

/-- Column lookup as an exception: pandas raises `KeyError` on a missing
column. -/
def DataFrame.getColE (df : DataFrame) (name : String) : Except String (List NumVal) :=
  match df.getCol name with
  | some l => .ok l
  | none => .error "KeyError"

/-- Column lookup with an empty default, for columns guaranteed present by
construction. -/
def DataFrame.getColD (df : DataFrame) (name : String) : List NumVal :=
  (df.getCol name).getD []

/-- Column assignment `df[name] = vals`: replaces the column in place or
appends it. -/
def DataFrame.setCol (df : DataFrame) (name : String) (vals : List NumVal) : DataFrame :=
  if df.cols.any fun c => c.1 == name then
    ⟨df.cols.map fun c => if c.1 == name then (name, vals) else c⟩
  else ⟨df.cols ++ [(name, vals)]⟩

/-- Column drop `df.drop([name], axis=1)`. -/
def DataFrame.dropCol (df : DataFrame) (name : String) : DataFrame :=
  ⟨df.cols.filter fun c => !(c.1 == name)⟩

/-- Column selection `df[names]`; raises `KeyError` if any is absent. -/
def DataFrame.selectCols (df : DataFrame) (names : List String) : Except String DataFrame :=
  match names with
  | [] => .ok ⟨[]⟩
  | n :: ns =>
    (df.getColE n).bind fun col =>
      (df.selectCols ns).map fun rest => ⟨(n, col) :: rest.cols⟩

/-- Number of rows (length of the first column). -/
def DataFrame.nrows (df : DataFrame) : ℕ :=
  match df.cols with
  | [] => 0
  | c :: _ => c.2.length

/-- Renaming `df.columns = names`, pairing new names with columns in order. -/
def DataFrame.renameCols (df : DataFrame) (names : List String) : DataFrame :=
  ⟨List.zipWith (fun n c => (n, c.2)) names df.cols⟩

/-- Row-wise concatenation `pd.concat([d1, d2], axis=0)` of frames sharing
the same column names. -/
def stackFrames (d1 d2 : DataFrame) : DataFrame :=
  ⟨d1.cols.map fun c => (c.1, c.2 ++ d2.getColD c.1)⟩

/-- Row-major matrix view of a frame, as `np.array(df)`. -/
def DataFrame.toRows (df : DataFrame) : List (List NumVal) :=
  (List.range df.nrows).map fun i => df.cols.map fun c => c.2.getD i NumVal.nan

/-- A computed segregation index result (`seg_class`): point statistic, the
core data frame, configured column names, group list for multigroup
variants, the identity of the index formula (`_function`, compared by
identity in python), the identity of the concrete class (`type(seg_class)`),
the single/multi variant tag, and whether the frame is a GeoDataFrame. -/
structure SegClass : Type where
  classId : ℕ
  funcId : ℕ
  isMulti : Bool
  statistic : ℚ
  data : DataFrame
  groupPopVar : String
  totalPopVar : String
  groups : List String
  hasGeometry : Bool
  deriving DecidableEq, Repr

/-- Counterfactual approach selector. -/
inductive CfApproach : Type where
  | composition : CfApproach
  | share : CfApproach
  | dualComposition : CfApproach
  deriving DecidableEq, Repr

/-- Per-row composition `group / total`. -/
def compositionOf (g t : List NumVal) : List NumVal :=
  List.zipWith NumVal.div g t

/-- Percentile rank of `x` within the empirical distribution `l`
(fraction of entries `≤ x`, NaN comparing false). -/
def percRank (l : List NumVal) (x : NumVal) : ℚ :=
  Nat.cast (l.filter fun y => NumVal.leb y x).length / Nat.cast l.length

/-- Insertion step for sorting by `NumVal.leb`. -/
def insertNV (x : NumVal) : List NumVal → List NumVal
  | [] => [x]
  | y :: ys => if NumVal.leb x y then x :: y :: ys else y :: insertNV x ys

/-- Insertion sort of float values by `NumVal.leb`. -/
def sortNV (l : List NumVal) : List NumVal := l.foldr insertNV []

/-- Empirical quantile of `l` at percentile `p` (value whose rank matches). -/
def empQuantile (l : List NumVal) (p : ℚ) : NumVal :=
  let s := sortNV l
  s.getD (min (s.length - 1) (⌈p * (Nat.cast s.length : ℚ)⌉ - 1).toNat) NumVal.nan

/-- Rank-based quantile transplant: each entry of `own` is replaced by the
`other` distribution's value at the same percentile rank. -/
def cfMatch (own other : List NumVal) : List NumVal :=
  own.map fun x => empQuantile other (percRank own x)

/-- Modelled from the spec: `_generate_counterfactual` lives in
`segregation/util/util.py`, which is absent from the sources; §4.1 of the
spec gives its contract.  Both inputs must have resolvable group/total
population columns (pandas raises `KeyError` otherwise); `composition`
matches per-row group/total ratios by empirical-CDF rank transplant and
reconstructs counterfactual group counts as the matched composition times
the original total, rounded to the nearest non-negative integer; `share`
applies the same matching to `group / sum(group)` and reconstructs both
counterfactual populations from matched shares and the marginal totals;
`dual_composition` matches the composition and its complement independently.
The second frame's column names default to the first's at the decomposition
call site.  The produced frames always carry the columns
`counterfactual_group_pop` and `counterfactual_total_pop`. -/
def generateCounterfactual (df1 df2 : DataFrame) (g1 t1 g2 t2 : String)
    (approach : CfApproach) : Except String (DataFrame × DataFrame) :=
  match df1.getCol g1, df1.getCol t1, df2.getCol g2, df2.getCol t2 with
  | some gp1, some tp1, some gp2, some tp2 =>
    match approach with
    | .composition =>
      let comp1 := compositionOf gp1 tp1
      let comp2 := compositionOf gp2 tp2
      let cfg1 := (List.zipWith NumVal.mul (cfMatch comp1 comp2) tp1).map NumVal.roundNN
      let cfg2 := (List.zipWith NumVal.mul (cfMatch comp2 comp1) tp2).map NumVal.roundNN
      .ok
        (((df1.setCol "group_composition" comp1).setCol "counterfactual_group_pop" cfg1).setCol "counterfactual_total_pop" tp1,
         ((df2.setCol "group_composition" comp2).setCol "counterfactual_group_pop" cfg2).setCol "counterfactual_total_pop" tp2)
    | .share =>
      let sg1 := NumVal.sumL gp1
      let sg2 := NumVal.sumL gp2
      let st1 := NumVal.sumL tp1
      let st2 := NumVal.sumL tp2
      let sh1 := gp1.map fun x => NumVal.div x sg1
      let sh2 := gp2.map fun x => NumVal.div x sg2
      let th1 := tp1.map fun x => NumVal.div x st1
      let th2 := tp2.map fun x => NumVal.div x st2
      let cfg1 := ((cfMatch sh1 sh2).map fun s => NumVal.mul s sg2).map NumVal.roundNN
      let cfg2 := ((cfMatch sh2 sh1).map fun s => NumVal.mul s sg1).map NumVal.roundNN
      let cft1 := ((cfMatch th1 th2).map fun s => NumVal.mul s st2).map NumVal.roundNN
      let cft2 := ((cfMatch th2 th1).map fun s => NumVal.mul s st1).map NumVal.roundNN
      .ok
        (((df1.setCol "share" sh1).setCol "counterfactual_group_pop" cfg1).setCol "counterfactual_total_pop" cft1,
         ((df2.setCol "share" sh2).setCol "counterfactual_group_pop" cfg2).setCol "counterfactual_total_pop" cft2)
    | .dualComposition =>
      let comp1 := compositionOf gp1 tp1
      let comp2 := compositionOf gp2 tp2
      let cmpl1 := comp1.map fun c => NumVal.sub (.fin 1) c
      let cmpl2 := comp2.map fun c => NumVal.sub (.fin 1) c
      let cfg1 := (List.zipWith NumVal.mul (cfMatch comp1 comp2) tp1).map NumVal.roundNN
      let cfg2 := (List.zipWith NumVal.mul (cfMatch comp2 comp1) tp2).map NumVal.roundNN
      let cfo1 := (List.zipWith NumVal.mul (cfMatch cmpl1 cmpl2) tp1).map NumVal.roundNN
      let cfo2 := (List.zipWith NumVal.mul (cfMatch cmpl2 cmpl1) tp2).map NumVal.roundNN
      .ok
        (((df1.setCol "group_composition" comp1).setCol "counterfactual_group_pop" cfg1).setCol "counterfactual_total_pop" (List.zipWith NumVal.add cfg1 cfo1),
         ((df2.setCol "group_composition" comp2).setCol "counterfactual_group_pop" cfg2).setCol "counterfactual_total_pop" (List.zipWith NumVal.add cfg2 cfo2))
  | _, _, _, _ => .error "KeyError"

/-- Result bundle of `_decompose_segregation`: the two Shapley components,
the four cross statistics, the copied core frames, the two counterfactual
frames and the approach. -/
structure DecompResult : Type where
  cS : ℚ
  cA : ℚ
  s1a1 : ℚ
  s1a2 : ℚ
  s2a1 : ℚ
  s2a2 : ℚ
  df1 : DataFrame
  df2 : DataFrame
  counterfacDf1 : DataFrame
  counterfacDf2 : DataFrame
  approach : CfApproach
  deriving DecidableEq, Repr

/-- `C_S = 1 / 2 * (G_S1_A1 - G_S2_A1 + G_S1_A2 - G_S2_A2)` from the
source. -/
def shapleySpatial (s1a1 s1a2 s2a1 s2a2 : ℚ) : ℚ :=
  1 / 2 * (s1a1 - s2a1 + s1a2 - s2a2)

/-- `C_A = 1 / 2 * (G_S1_A1 - G_S1_A2 + G_S2_A1 - G_S2_A2)` from the
source. -/
def shapleyAttribute (s1a1 s1a2 s2a1 s2a2 : ℚ) : ℚ :=
  1 / 2 * (s1a1 - s1a2 + s2a1 - s2a2)

/-- `_decompose_segregation`.  `F` is the environment of index formulas
(one pure function per `funcId`, as python stores `_function` on the class);
each returns the statistic, the first element of the tuple the python
formula returns.  The core frames are copied, the formula identities are
compared (`assert index1._function == index2._function`), the counterfactual
generator is invoked with the literal column names `'group_pop_var'` and
`'total_pop_var'`, and the formula is re-evaluated on the literal columns
`'counterfactual_group_pop'` and `'counterfactual_total_pop'` of each
counterfactual frame. -/
def decomposeSegregation (F : ℕ → DataFrame → String → String → Except String ℚ)
    (index1 index2 : SegClass) (approach : CfApproach) : Except String DecompResult :=
  let df1 := index1.data
  let df2 := index2.data
  if index1.funcId ≠ index2.funcId then
    .error "Segregation indices must be of the same type"
  else
    match generateCounterfactual df1 df2 "group_pop_var" "total_pop_var" "group_pop_var" "total_pop_var" approach with
    | .error e => .error e
    | .ok (counterfacDf1, counterfacDf2) =>
      match F index1.funcId counterfacDf1 "counterfactual_group_pop" "counterfactual_total_pop" with
      | .error e => .error e
      | .ok gS1A2 =>
        match F index1.funcId counterfacDf2 "counterfactual_group_pop" "counterfactual_total_pop" with
        | .error e => .error e
        | .ok gS2A1 =>
          .ok
            { cS := shapleySpatial index1.statistic gS1A2 gS2A1 index2.statistic
              cA := shapleyAttribute index1.statistic gS1A2 gS2A1 index2.statistic
              s1a1 := index1.statistic
              s1a2 := gS1A2
              s2a1 := gS2A1
              s2a2 := index2.statistic
              df1 := df1
              df2 := df2
              counterfacDf1 := counterfacDf1
              counterfacDf2 := counterfacDf2
              approach := approach }

/-- The six null models of `_infer_segregation`. -/
inductive NullApproach1 : Type where
  | systematic : NullApproach1
  | bootstrap : NullApproach1
  | evenness : NullApproach1
  | permutation : NullApproach1
  | systematicPermutation : NullApproach1
  | evenPermutation : NullApproach1
  deriving DecidableEq, Repr

/-- The deterministic set-up work of each single-sample null model, acting
on the copy `data = seg_class.data.copy()`: the multigroup not-implemented
rejections, the GeoDataFrame requirement of the permutation family, the
column reads, and the `other_group_pop` column written by the systematic
family.  The random draws and the per-round index evaluations are modelled
by the `rounds` oracle of `inferSegregation`. -/
def inferDispatch (seg : SegClass) : NullApproach1 → Except String DataFrame
  | .systematic =>
    if seg.isMulti then .error "Not implemented for MultiGroup indexes."
    else
      (seg.data.getColE seg.totalPopVar).bind fun tot =>
      (seg.data.getColE seg.groupPopVar).map fun grp =>
      seg.data.setCol "other_group_pop" (List.zipWith NumVal.sub tot grp)
  | .bootstrap => .ok seg.data
  | .evenness =>
    if seg.isMulti then .ok seg.data
    else
      (seg.data.getColE seg.groupPopVar).bind fun _ =>
      (seg.data.getColE seg.totalPopVar).map fun _ =>
      seg.data
  | .permutation =>
    if seg.isMulti then .error "Not implemented for MultiGroup indexes."
    else if !seg.hasGeometry then
      .error "data is not a GeoDataFrame, therefore, this null approach does not apply."
    else .ok seg.data
  | .systematicPermutation =>
    if seg.isMulti then .error "Not implemented for MultiGroup indexes."
    else if !seg.hasGeometry then
      .error "data is not a GeoDataFrame, therefore, this null approach does not apply."
    else
      (seg.data.getColE seg.totalPopVar).bind fun tot =>
      (seg.data.getColE seg.groupPopVar).map fun grp =>
      seg.data.setCol "other_group_pop" (List.zipWith NumVal.sub tot grp)
  | .evenPermutation =>
    if seg.isMulti then .error "Not implemented for MultiGroup indexes."
    else if !seg.hasGeometry then
      .error "data is not a GeoDataFrame, therefore, this null approach does not apply."
    else
      (seg.data.getColE seg.groupPopVar).bind fun _ =>
      (seg.data.getColE seg.totalPopVar).map fun _ =>
      seg.data

/-- Result of `_infer_segregation`: the p-value, the filtered null sample
`est_sim`, the point statistic, the number of `warnings.warn` calls the
engine issued, the caller-visible `seg_class.data` after the run, and the
mutated working copy. -/
structure InferResult : Type where
  pValue : NumVal
  estSim : List ℚ
  statistic : ℚ
  warningsCount : ℕ
  callerData : DataFrame
  workingData : DataFrame
  deriving DecidableEq, Repr

/-- The common tail of `_infer_segregation`: one aggregate degeneracy
warning if any round is NaN/infinite, the NaN/infinite filter, and the one-
or two-tailed p-value. -/
def finishInfer (seg : SegClass) (iters : ℕ) (twoTailed : Bool)
    (rounds : List NumVal) (working : DataFrame) : InferResult :=
  let warncount := if rounds.any fun x => !x.isFin then 1 else 0
  let filtered := filterFin rounds
  let p := if twoTailed then pvalTwoTailed filtered seg.statistic
           else pvalOneTailed filtered seg.statistic iters
  { pValue := p
    estSim := filtered
    statistic := seg.statistic
    warningsCount := warncount
    callerData := seg.data
    workingData := working }

/-- `_infer_segregation`.  The null-approach validity check is enforced by
the `NullApproach1` type and `two_tailed` is typed `Bool` (the source's
string-membership and `type(two_tailed) is bool` checks).  `rounds` is the
oracle of per-iteration simulated statistics (each entry the value of
`seg_class._function` on that round's synthesized frame, possibly NaN or
infinite). -/
def inferSegregation (seg : SegClass) (iters : ℕ) (approach : NullApproach1)
    (twoTailed : Bool) (rounds : List NumVal) : Except String InferResult :=
  (inferDispatch seg approach).map fun working =>
    finishInfer seg iters twoTailed rounds working

/-- The four null models of `_compare_segregation`. -/
inductive NullApproach2 : Type where
  | randomLabel : NullApproach2
  | cfComposition : NullApproach2
  | cfShare : NullApproach2
  | cfDualComposition : NullApproach2
  deriving DecidableEq, Repr

/-- `null_approach[15:]`: the counterfactual approach named by a
`counterfactual_*` null approach (unused for `random_label`, which never
reaches the counterfactual branch). -/
def cfApproachOf : NullApproach2 → CfApproach
  | .randomLabel => .composition
  | .cfComposition => .composition
  | .cfShare => .share
  | .cfDualComposition => .dualComposition

/-- `df[name] = df[name].round(0).astype(int)` for one column. -/
def roundIntColumn (df : DataFrame) (name : String) : Except String DataFrame :=
  (df.getColE name).map fun col => df.setCol name (col.map NumVal.roundIntNV)

/-- The multigroup `random_label` loop rounding every group column of both
copied frames to integers. -/
def roundIntColumnsPair : List String → DataFrame → DataFrame →
    Except String (DataFrame × DataFrame)
  | [], d1, d2 => .ok (d1, d2)
  | n :: ns, d1, d2 =>
    (roundIntColumn d1 n).bind fun e1 =>
    (roundIntColumn d2 n).bind fun e2 =>
    roundIntColumnsPair ns e1 e2

/-- Single-group `random_label` set-up on the two copies: tag each frame
with a grouping variable (`Group_1`/`Group_2`, encoded as `1`/`2`), round
the two population columns to integers, keep only those columns, rename
them to the shared names `group`/`total`, and stack the frames.  The
per-round label permutation is random and modelled by the `rounds`
oracle. -/
def randomLabelSingle (seg1 seg2 : SegClass) : Except String DataFrame :=
  let d1 := seg1.data.setCol "grouping_variable" (List.replicate seg1.data.nrows (NumVal.fin 1))
  let d2 := seg2.data.setCol "grouping_variable" (List.replicate seg2.data.nrows (NumVal.fin 2))
  (roundIntColumn d1 seg1.groupPopVar).bind fun d1 =>
  (roundIntColumn d1 seg1.totalPopVar).bind fun d1 =>
  (d1.selectCols [seg1.groupPopVar, seg1.totalPopVar, "grouping_variable"]).bind fun d1 =>
  let d1 := d1.renameCols ["group", "total", "grouping_variable"]
  (roundIntColumn d2 seg2.groupPopVar).bind fun d2 =>
  (roundIntColumn d2 seg2.totalPopVar).bind fun d2 =>
  (d2.selectCols [seg2.groupPopVar, seg2.totalPopVar, "grouping_variable"]).bind fun d2 =>
  let d2 := d2.renameCols ["group", "total", "grouping_variable"]
  .ok (stackFrames d1 d2)

/-- Multigroup `random_label` set-up: tag the copies, round every group
column of `seg_class_1.groups` in both frames to integers, require the two
group lists to coincide, and stack. -/
def randomLabelMulti (seg1 seg2 : SegClass) : Except String DataFrame :=
  let d1 := seg1.data.setCol "grouping_variable" (List.replicate seg1.data.nrows (NumVal.fin 1))
  let d2 := seg2.data.setCol "grouping_variable" (List.replicate seg2.data.nrows (NumVal.fin 2))
  (roundIntColumnsPair seg1.groups d1 d2).bind fun dd =>
  if seg1.groups ≠ seg2.groups then .error "MultiGroup groups should be the same"
  else .ok (stackFrames dd.1 dd.2)

/-- The `counterfactual_*` branch set-up of `_compare_segregation`:
multigroup inputs are rejected as not implemented before anything else, the
counterfactual generator is invoked once on the copies with the configured
column names of both classes, and for `counterfactual_share` and
`counterfactual_dual_composition` the copies' total-population columns are
overwritten by the counterfactual totals (columns present by construction
of the generator).  Returns the two working copies. -/
def compareCfPrep (seg1 seg2 : SegClass) (app : NullApproach2) :
    Except String (DataFrame × DataFrame) :=
  if seg1.isMulti then .error "Not implemented for MultiGroup indexes."
  else
    (generateCounterfactual seg1.data seg2.data seg1.groupPopVar seg1.totalPopVar
        seg2.groupPopVar seg2.totalPopVar (cfApproachOf app)).map fun cf =>
      if app = .cfShare ∨ app = .cfDualComposition then
        (seg1.data.setCol seg1.totalPopVar (cf.1.getColD "counterfactual_total_pop"),
         seg2.data.setCol seg2.totalPopVar (cf.2.getColD "counterfactual_total_pop"))
      else (seg1.data, seg2.data)

/-- Result of `_compare_segregation`: the always-two-tailed p-value, the
filtered null sample of statistic differences, the point difference, the
warning count, and the caller-visible frames after the run. -/
structure CompareResult : Type where
  pValue : NumVal
  estSim : List ℚ
  pointEstimate : ℚ
  warningsCount : ℕ
  callerData1 : DataFrame
  callerData2 : DataFrame
  deriving DecidableEq, Repr

/-- The null-model set-up work of `_compare_segregation` on the two
copies, returning the two working frames. -/
def compareDispatch (seg1 seg2 : SegClass) : NullApproach2 → Except String (DataFrame × DataFrame)
  | .randomLabel =>
    (if seg1.isMulti then randomLabelMulti seg1 seg2
     else randomLabelSingle seg1 seg2).map fun d => (d, d)
  | app => compareCfPrep seg1 seg2 app

/-- `_compare_segregation`.  The null-approach validity check is enforced
by `NullApproach2`; the `type(seg_class_1) != type(seg_class_2)` check is
modelled on `classId`; `rounds` is the oracle of per-iteration simulated
statistic differences. -/
def compareSegregation (seg1 seg2 : SegClass) (iters : ℕ)
    (approach : NullApproach2) (rounds : List NumVal) :
    Except String CompareResult :=
  if seg1.classId ≠ seg2.classId then
    .error "seg_class_1 and seg_class_2 must be the same type/class."
  else
    let pointEstimation := seg1.statistic - seg2.statistic
    (compareDispatch seg1 seg2 approach).map fun _working =>
      let warncount := if rounds.any fun x => !x.isFin then 1 else 0
      let filtered := filterFin rounds
      { pValue := pvalTwoTailed filtered pointEstimation
        estSim := filtered
        pointEstimate := pointEstimation
        warningsCount := warncount
        callerData1 := seg1.data
        callerData2 := seg2.data }

/-- Row sums `ti = df.sum(axis=1)` of the row-major matrix. -/
def rowSums (rows : List (List NumVal)) : List NumVal :=
  rows.map NumVal.sumL

/-- Grand total `T = df.sum()` of the row-major matrix. -/
def matSum (rows : List (List NumVal)) : NumVal :=
  NumVal.sumL (rows.map NumVal.sumL)

/-- Column sum at position `j`, `df.sum(axis=0)[j]`. -/
def colSumAt (rows : List (List NumVal)) (j : ℕ) : NumVal :=
  NumVal.sumL (rows.map fun r => r.getD j NumVal.nan)

/-- The arithmetic core of `_multi_dissim` on the row-major matrix of the
selected group columns: `T = df.sum()`, `ti = df.sum(axis=1)`,
`pik = df / ti[:, None]`, `Pk = df.sum(axis=0) / df.sum()`,
`Is = (Pk * (1 - Pk)).sum()`, and
`1 / (2 * T * Is) * (abs(pik - Pk) * ti).sum()`. -/
def multiDissimCore (rows : List (List NumVal)) (k : ℕ) : NumVal :=
  let T := matSum rows
  let ti := rowSums rows
  let pik := rows.map fun r => r.map fun x => NumVal.div x (NumVal.sumL r)
  let Pk := (List.range k).map fun j => NumVal.div (colSumAt rows j) T
  let Is := NumVal.sumL (Pk.map fun p => NumVal.mul p (NumVal.sub (NumVal.fin 1) p))
  let inner := NumVal.sumL ((List.zip pik ti).map fun rt =>
    NumVal.sumL (List.zipWith (fun pv pk => NumVal.mul ((NumVal.sub pv pk).absV) rt.2) rt.1 Pk))
  NumVal.mul (NumVal.div (NumVal.fin 1) (NumVal.mul (NumVal.mul (NumVal.fin 2) T) Is)) inner

/-- `_multi_dissim`.  `nanHandle` is the imported `_nan_handle` helper from
`segregation/util/util.py` (absent from the sources), kept fully abstract:
the source binds `data = _nan_handle(core_data)` and then computes
everything from the unfiltered `core_data`, so the binding is dead.
Returns `(multi_D, core_data, groups)`. -/
def multiDissim (nanHandle : DataFrame → DataFrame) (data : DataFrame)
    (groups : List String) : Except String (NumVal × DataFrame × List String) :=
  (data.selectCols groups).map fun coreData =>
    let _filtered := nanHandle coreData
    (multiDissimCore coreData.toRows groups.length, coreData, groups)

/-- `_multi_dissim` with the dead `_nan_handle` call removed: the
computation the spec claim compares against. -/
def multiDissimNoHandle (data : DataFrame) (groups : List String) :
    Except String (NumVal × DataFrame × List String) :=
  (data.selectCols groups).map fun coreData =>
    (multiDissimCore coreData.toRows groups.length, coreData, groups)

deriving instance DecidableEq for Except

/-- Extract the payload of a successful computation, with a default for the
error case. -/
def exGet {α : Type} (d : α) : Except String α → α
  | .ok a => a
  | .error _ => d

/-- The empty frame. -/
def dfEmpty : DataFrame := ⟨[]⟩

/-- Junk default `InferResult` for `exGet`. -/
def junkInfer : InferResult :=
  { pValue := .nan, estSim := [], statistic := 0, warningsCount := 0,
    callerData := dfEmpty, workingData := dfEmpty }

/-- Junk default `CompareResult` for `exGet`. -/
def junkCompare : CompareResult :=
  { pValue := .nan, estSim := [], pointEstimate := 0, warningsCount := 0,
    callerData1 := dfEmpty, callerData2 := dfEmpty }

/-- Junk default `DecompResult` for `exGet`. -/
def junkDecomp : DecompResult :=
  { cS := 0, cA := 0, s1a1 := 0, s1a2 := 0, s2a1 := 0, s2a2 := 0,
    df1 := dfEmpty, df2 := dfEmpty, counterfacDf1 := dfEmpty,
    counterfacDf2 := dfEmpty, approach := .composition }

/-- Division of finite values with a non-zero denominator is exact. -/
theorem NumVal.div_fin_fin (a b : ℚ) (hb : b ≠ 0) :
    NumVal.div (.fin a) (.fin b) = .fin (a / b) := by
  simp [NumVal.div, hb]

/-- A sample entry cannot be both above and below the point estimate, so
the two tail counts together never exceed the sample size. -/
theorem counts_le_length (l : List ℚ) (pt : ℚ) :
    countAbove l pt + countBelow l pt ≤ l.length := by
  induction l with
  | nil => simp [countAbove, countBelow]
  | cons x xs ih =>
    unfold countAbove countBelow at ih ⊢
    by_cases h1 : pt < x
    · have h2 : ¬ x < pt := lt_asymm h1
      simp only [List.filter_cons, List.length_cons]
      simp only [h1, h2]
      simp only [decide_eq_true_eq, if_true, if_false, List.length_cons]
      simp
      omega
    · by_cases h2 : x < pt
      · simp only [List.filter_cons, List.length_cons]
        simp [h1, h2]
        omega
      · simp only [List.filter_cons, List.length_cons]
        simp [h1, h2]
        omega

/-- The tail count is at most the sample size. -/
theorem countAbove_le_length (l : List ℚ) (pt : ℚ) :
    countAbove l pt ≤ l.length :=
  List.length_filter_le _ l

/-- Filtering the degenerate entries never lengthens the sample. -/
theorem filterFin_length_le (l : List NumVal) :
    (filterFin l).length ≤ l.length :=
  List.length_filterMap_le _ l

/-- Dropped plus surviving rounds account for every requested round. -/
theorem filterFin_length_add (l : List NumVal) :
    (filterFin l).length + (l.filter fun x => !x.isFin).length = l.length := by
  induction l with
  | nil => simp [filterFin]
  | cons x xs ih =>
    cases x with
    | fin q =>
      simp only [filterFin, List.filterMap_cons, List.filter_cons,
        NumVal.isFin, Bool.not_true] at ih ⊢
      simp only [List.length_cons]
      simp at ih ⊢
      omega
    | nan =>
      simp only [filterFin, List.filterMap_cons, List.filter_cons,
        NumVal.isFin, Bool.not_false] at ih ⊢
      simp only [List.length_cons]
      simp at ih ⊢
      omega
    | pinf =>
      simp only [filterFin, List.filterMap_cons, List.filter_cons,
        NumVal.isFin, Bool.not_false] at ih ⊢
      simp only [List.length_cons]
      simp at ih ⊢
      omega
    | ninf =>
      simp only [filterFin, List.filterMap_cons, List.filter_cons,
        NumVal.isFin, Bool.not_false] at ih ⊢
      simp only [List.length_cons]
      simp at ih ⊢
      omega

/-- The counterfactual generator rejects inputs whose population columns
cannot be resolved. -/
theorem generateCounterfactual_missing (df1 df2 : DataFrame)
    (g1 t1 g2 t2 : String) (app : CfApproach)
    (h : df1.getCol g1 = none ∨ df1.getCol t1 = none ∨
         df2.getCol g2 = none ∨ df2.getCol t2 = none) :
    generateCounterfactual df1 df2 g1 t1 g2 t2 app = .error "KeyError" := by
  unfold generateCounterfactual
  cases e1 : df1.getCol g1 <;> cases e2 : df1.getCol t1 <;>
    cases e3 : df2.getCol g2 <;> cases e4 : df2.getCol t2 <;> simp_all

/-- Anatomy of a successful decomposition: the funcId check passed, the
cross statistics are the two point statistics and the two counterfactual
re-evaluations, the components are the source's Shapley formulas, and the
returned core frames are the copies of the inputs. -/
theorem decomposeSegregation_ok
    (F : ℕ → DataFrame → String → String → Except String ℚ)
    (i1 i2 : SegClass) (app : CfApproach) (r : DecompResult)
    (h : decomposeSegregation F i1 i2 app = .ok r) :
    i1.funcId = i2.funcId ∧
    r.s1a1 = i1.statistic ∧ r.s2a2 = i2.statistic ∧
    F i1.funcId r.counterfacDf1 "counterfactual_group_pop" "counterfactual_total_pop" = .ok r.s1a2 ∧
    F i1.funcId r.counterfacDf2 "counterfactual_group_pop" "counterfactual_total_pop" = .ok r.s2a1 ∧
    r.cS = shapleySpatial r.s1a1 r.s1a2 r.s2a1 r.s2a2 ∧
    r.cA = shapleyAttribute r.s1a1 r.s1a2 r.s2a1 r.s2a2 ∧
    r.df1 = i1.data ∧ r.df2 = i2.data := by
  unfold decomposeSegregation at h
  by_cases hf : i1.funcId ≠ i2.funcId
  · simp [hf] at h
  · rw [if_neg hf] at h
    split at h
    · exact absurd h (by simp)
    · rename_i cf1 cf2
      split at h
      · exact absurd h (by simp)
      · rename_i g12 hF1
        split at h
        · exact absurd h (by simp)
        · rename_i g21 hF2
          simp only [Except.ok.injEq] at h
          subst h
          exact ⟨by push_neg at hf; exact hf, rfl, rfl, hF1, hF2, rfl, rfl, rfl, rfl⟩

/-- Anatomy of a successful single-sample inference run: the null sample is
the filtered rounds, at most one aggregate warning is issued (exactly when a
degenerate round exists), the caller frame is returned unchanged, and the
p-value is the tail formula on the filtered sample. -/
theorem inferSegregation_ok (seg : SegClass) (iters : ℕ)
    (approach : NullApproach1) (twoTailed : Bool) (rounds : List NumVal)
    (r : InferResult) (h : inferSegregation seg iters approach twoTailed rounds = .ok r) :
    r.estSim = filterFin rounds ∧
    r.statistic = seg.statistic ∧
    r.warningsCount = (if rounds.any fun x => !x.isFin then 1 else 0) ∧
    r.callerData = seg.data ∧
    r.pValue = (if twoTailed then pvalTwoTailed (filterFin rounds) seg.statistic
                else pvalOneTailed (filterFin rounds) seg.statistic iters) := by
  unfold inferSegregation at h
  cases hd : inferDispatch seg approach with
  | error e => rw [hd] at h; exact absurd h (by simp [Except.map])
  | ok w =>
    rw [hd] at h
    simp only [Except.map, Except.ok.injEq] at h
    subst h
    exact ⟨rfl, rfl, rfl, rfl, rfl⟩

/-- Anatomy of a successful two-sample inference run: the type check
passed, the point estimate is the difference of statistics, the null sample
is the filtered rounds, at most one aggregate warning is issued, the caller
frames are returned unchanged, and the p-value is always the two-tailed
formula. -/
theorem compareSegregation_ok (seg1 seg2 : SegClass) (iters : ℕ)
    (approach : NullApproach2) (rounds : List NumVal)
    (r : CompareResult) (h : compareSegregation seg1 seg2 iters approach rounds = .ok r) :
    seg1.classId = seg2.classId ∧
    r.pointEstimate = seg1.statistic - seg2.statistic ∧
    r.estSim = filterFin rounds ∧
    r.warningsCount = (if rounds.any fun x => !x.isFin then 1 else 0) ∧
    r.callerData1 = seg1.data ∧ r.callerData2 = seg2.data ∧
    r.pValue = pvalTwoTailed (filterFin rounds) (seg1.statistic - seg2.statistic) := by
  unfold compareSegregation at h
  by_cases hc : seg1.classId ≠ seg2.classId
  · simp [hc] at h
  · rw [if_neg hc] at h
    cases hd : compareDispatch seg1 seg2 approach with
    | error e => rw [hd] at h; exact absurd h (by simp [Except.map])
    | ok w =>
      rw [hd] at h
      simp only [Except.map, Except.ok.injEq] at h
      subst h
      exact ⟨by push_neg at hc; exact hc, rfl, rfl, rfl, rfl, rfl, rfl⟩

/-- The only error a single-column integer rounding can raise is the pandas
`KeyError`. -/
theorem roundIntColumn_error (df : DataFrame) (n : String) (e : String)
    (h : roundIntColumn df n = .error e) : e = "KeyError" := by
  unfold roundIntColumn DataFrame.getColE at h
  cases hg : df.getCol n <;> rw [hg] at h <;> simp [Except.map] at h
  exact h.symm

/-- The only error the multigroup rounding loop can raise is `KeyError`. -/
theorem roundIntColumnsPair_error : ∀ (gs : List String) (d1 d2 : DataFrame)
    (e : String), roundIntColumnsPair gs d1 d2 = .error e → e = "KeyError" := by
  intro gs
  induction gs with
  | nil => intro d1 d2 e h; simp [roundIntColumnsPair] at h
  | cons n ns ih =>
    intro d1 d2 e h
    unfold roundIntColumnsPair at h
    cases h1 : roundIntColumn d1 n with
    | error e1 =>
      rw [h1] at h
      simp [Except.bind] at h
      exact h ▸ roundIntColumn_error d1 n e1 h1
    | ok w1 =>
      rw [h1] at h
      simp only [Except.bind] at h
      cases h2 : roundIntColumn d2 n with
      | error e2 =>
        rw [h2] at h
        simp [Except.bind] at h
        exact h ▸ roundIntColumn_error d2 n e2 h2
      | ok w2 =>
        rw [h2] at h
        exact ih w1 w2 e h

/-- The only error a column selection can raise is `KeyError`. -/
theorem selectCols_error : ∀ (ns : List String) (df : DataFrame) (e : String),
    df.selectCols ns = .error e → e = "KeyError" := by
  intro ns
  induction ns with
  | nil => intro df e h; simp [DataFrame.selectCols] at h
  | cons n ms ih =>
    intro df e h
    unfold DataFrame.selectCols at h
    cases h1 : df.getColE n with
    | error e1 =>
      rw [h1] at h
      simp [Except.bind] at h
      unfold DataFrame.getColE at h1
      cases hg : df.getCol n <;> rw [hg] at h1 <;> simp at h1
      exact h ▸ h1.symm
    | ok w1 =>
      rw [h1] at h
      simp only [Except.bind] at h
      cases h2 : df.selectCols ms with
      | error e2 =>
        rw [h2] at h
        simp [Except.map] at h
        exact h ▸ ih df e2 h2
      | ok w2 => rw [h2] at h; simp [Except.map] at h

/-- The multigroup `random_label` set-up fails only with `KeyError` or the
group-list mismatch, never with the not-implemented rejection. -/
theorem randomLabelMulti_error (seg1 seg2 : SegClass) (e : String)
    (h : randomLabelMulti seg1 seg2 = .error e) :
    e = "KeyError" ∨ e = "MultiGroup groups should be the same" := by
  unfold randomLabelMulti at h
  simp only [] at h
  cases h1 : roundIntColumnsPair seg1.groups
      (seg1.data.setCol "grouping_variable" (List.replicate seg1.data.nrows (NumVal.fin 1)))
      (seg2.data.setCol "grouping_variable" (List.replicate seg2.data.nrows (NumVal.fin 2))) with
  | error e1 =>
    rw [h1] at h
    simp [Except.bind] at h
    exact Or.inl (h ▸ roundIntColumnsPair_error _ _ _ e1 h1)
  | ok dd =>
    rw [h1] at h
    simp only [Except.bind] at h
    by_cases hg : seg1.groups ≠ seg2.groups
    · rw [if_pos hg] at h
      simp at h
      exact Or.inr h.symm
    · rw [if_neg hg] at h
      simp at h

/-- On the empty surviving sample the two-tailed computation is `0 / 0`,
which numpy evaluates to NaN (with a runtime warning) rather than raising. -/
theorem pvalTwoTailed_nil (pt : ℚ) : pvalTwoTailed [] pt = NumVal.nan := by
  simp [pvalTwoTailed, countAbove, countBelow, NumVal.div]

/-- On the empty surviving sample the one-tailed p-value is
`0 / iterations = 0`. -/
theorem pvalOneTailed_nil (pt : ℚ) (iters : ℕ) (hit : iters ≠ 0) :
    pvalOneTailed [] pt iters = .fin 0 := by
  unfold pvalOneTailed countAbove
  rw [NumVal.div_fin_fin _ _ (by exact_mod_cast hit)]
  simp

/-- The one-tailed p-value is a rational in `[0, 1]` whenever the surviving
sample is no larger than the requested iteration count. -/
theorem pvalOneTailed_bounds (l : List ℚ) (pt : ℚ) (iters : ℕ)
    (hit : 0 < iters) (hl : l.length ≤ iters) :
    ∃ q, pvalOneTailed l pt iters = .fin q ∧ 0 ≤ q ∧ q ≤ 1 := by
  have hiq : ((iters : ℚ)) ≠ 0 := by positivity
  refine ⟨_, NumVal.div_fin_fin _ _ hiq, by positivity, ?_⟩
  rw [div_le_one (by positivity)]
  exact_mod_cast le_trans (countAbove_le_length l pt) hl

/-- The two-tailed p-value is a rational in `[0, 1]` whenever the surviving
sample is non-empty. -/
theorem pvalTwoTailed_bounds (l : List ℚ) (pt : ℚ) (hne : l ≠ []) :
    ∃ q, pvalTwoTailed l pt = .fin q ∧ 0 ≤ q ∧ q ≤ 1 := by
  have hl : 0 < l.length := List.length_pos.mpr hne
  have hq : ((l.length : ℚ)) ≠ 0 := by positivity
  refine ⟨_, NumVal.div_fin_fin _ _ hq, by positivity, ?_⟩
  rw [div_le_one (by exact_mod_cast hl)]
  have hmin1 := Nat.min_le_left (countAbove l pt) (countBelow l pt)
  have hsum := counts_le_length l pt
  have hnat : 2 * min (countAbove l pt) (countBelow l pt) ≤ l.length := by
    have hmin2 := Nat.min_le_right (countAbove l pt) (countBelow l pt)
    omega
  exact_mod_cast hnat

/-- The `counterfactual_*` branch of the two-sample dispatch rejects
multigroup inputs as not implemented. -/
theorem compareDispatch_multi_cf (seg1 seg2 : SegClass)
    (hm : seg1.isMulti = true) (app : NullApproach2)
    (happ : app = .cfComposition ∨ app = .cfShare ∨ app = .cfDualComposition) :
    compareDispatch seg1 seg2 app = .error "Not implemented for MultiGroup indexes." := by
  rcases happ with h | h | h <;> subst h <;>
    simp [compareDispatch, compareCfPrep, hm]

/-- Two-unit example frame with the literal decomposition column names. -/
def dfEx1 : DataFrame :=
  ⟨[("group_pop_var", [.fin 5, .fin 10]), ("total_pop_var", [.fin 10, .fin 20])]⟩

/-- Second two-unit example frame. -/
def dfEx2 : DataFrame :=
  ⟨[("group_pop_var", [.fin 2, .fin 8]), ("total_pop_var", [.fin 10, .fin 10])]⟩

/-- Example single-group index result on `dfEx1`. -/
def idxEx1 : SegClass :=
  { classId := 1, funcId := 1, isMulti := false, statistic := 1 / 2,
    data := dfEx1, groupPopVar := "group_pop_var",
    totalPopVar := "total_pop_var", groups := [], hasGeometry := false }

/-- Example single-group index result on `dfEx2`, same class and formula. -/
def idxEx2 : SegClass :=
  { classId := 1, funcId := 1, isMulti := false, statistic := 3 / 10,
    data := dfEx2, groupPopVar := "group_pop_var",
    totalPopVar := "total_pop_var", groups := [], hasGeometry := false }

/-- Example index result of a different class and formula. -/
def idxMis : SegClass :=
  { classId := 9, funcId := 9, isMulti := false, statistic := 3 / 10,
    data := dfEx2, groupPopVar := "group_pop_var",
    totalPopVar := "total_pop_var", groups := [], hasGeometry := false }

/-- Example multigroup index result. -/
def segMG : SegClass :=
  { classId := 4, funcId := 4, isMulti := true, statistic := 1 / 4,
    data := ⟨[("g1", [.fin 3, .fin 7]), ("g2", [.fin 4, .fin 6])]⟩,
    groupPopVar := "", totalPopVar := "", groups := ["g1", "g2"],
    hasGeometry := false }

/-- Example index result whose core data lacks the literal decomposition
column names. -/
def idxNoCols : SegClass :=
  { classId := 1, funcId := 1, isMulti := false, statistic := 1 / 2,
    data := ⟨[("hisp_pop", [.fin 1, .fin 3]), ("tot_pop", [.fin 2, .fin 4])]⟩,
    groupPopVar := "hisp_pop", totalPopVar := "tot_pop", groups := [],
    hasGeometry := false }

/-- Constant example index formula environment. -/
def Fconst : ℕ → DataFrame → String → String → Except String ℚ :=
  fun _ _ _ _ => .ok (2 / 5)

/-- The decomposition of the two example indices. -/
def decompEx : DecompResult :=
  exGet junkDecomp (decomposeSegregation Fconst idxEx1 idxEx2 .composition)

/-- An example single-sample run (one degenerate round). -/
def infEx : InferResult :=
  exGet junkInfer (inferSegregation idxEx1 2 .bootstrap true [.nan, .fin (3 / 5)])

/-- An example two-sample run (one degenerate round). -/
def compEx : CompareResult :=
  exGet junkCompare (compareSegregation idxEx1 idxEx2 2 .randomLabel [.fin (1 / 10), .nan])

/-- C1: for every pair of index results accepted by the decomposition
engine, the returned spatial component equals
`½[(G(S1,A1) − G(S2,A1)) + (G(S1,A2) − G(S2,A2))]` and the returned
attribute component equals
`½[(G(S1,A1) − G(S1,A2)) + (G(S2,A1) − G(S2,A2))]`, where `G(S1,A1)` and
`G(S2,A2)` are the two point statistics and `G(S1,A2)`, `G(S2,A1)` are the
index function re-evaluated on the counterfactual columns of the two
counterfactual frames; the closed forms hold exactly, with no approximation
or iteration. -/
theorem decompose_closed_forms
    (F : ℕ → DataFrame → String → String → Except String ℚ)
    (i1 i2 : SegClass) (app : CfApproach) (r : DecompResult)
    (h : decomposeSegregation F i1 i2 app = .ok r) :
    r.s1a1 = i1.statistic ∧ r.s2a2 = i2.statistic ∧
    F i1.funcId r.counterfacDf1 "counterfactual_group_pop" "counterfactual_total_pop" = .ok r.s1a2 ∧
    F i1.funcId r.counterfacDf2 "counterfactual_group_pop" "counterfactual_total_pop" = .ok r.s2a1 ∧
    r.cS = 1 / 2 * ((r.s1a1 - r.s2a1) + (r.s1a2 - r.s2a2)) ∧
    r.cA = 1 / 2 * ((r.s1a1 - r.s1a2) + (r.s2a1 - r.s2a2)) := by
  obtain ⟨-, h1, h2, h3, h4, h5, h6, -, -⟩ := decomposeSegregation_ok F i1 i2 app r h
  refine ⟨h1, h2, h3, h4, ?_, ?_⟩
  · rw [h5]; unfold shapleySpatial; ring
  · rw [h6]; unfold shapleyAttribute; ring

/-- Witness for C1 at a concrete decomposition. -/
theorem decompose_closed_forms_witness :
    decomposeSegregation Fconst idxEx1 idxEx2 .composition = .ok decompEx ∧
    decompEx.cS = 1 / 2 * ((decompEx.s1a1 - decompEx.s2a1) + (decompEx.s1a2 - decompEx.s2a2)) :=
  ⟨by with_unfolding_all rfl,
   (decompose_closed_forms Fconst idxEx1 idxEx2 .composition decompEx
     (by with_unfolding_all rfl)).2.2.2.2.1⟩

/-- C4 counterexample: the claim asserts the existence of four cross
statistics whose Shapley components do not sum to the difference of the two
point statistics; no such cross statistics exist, because the source's two
formulas cancel exactly. -/
theorem shapley_sum_counterexample :
    ¬ ∃ a b c d : ℚ, shapleySpatial a b c d + shapleyAttribute a b c d ≠ a - d := by
  push_neg
  intro a b c d
  unfold shapleySpatial shapleyAttribute
  ring

/-- C4 amended: for every decomposition accepted by the engine, the spatial
component plus the attribute component equals `index1.statistic −
index2.statistic` exactly; both are derived from the same four cross
statistics. -/
theorem decompose_components_sum
    (F : ℕ → DataFrame → String → String → Except String ℚ)
    (i1 i2 : SegClass) (app : CfApproach) (r : DecompResult)
    (h : decomposeSegregation F i1 i2 app = .ok r) :
    r.cS + r.cA = i1.statistic - i2.statistic := by
  obtain ⟨-, h1, h2, -, -, h5, h6, -, -⟩ := decomposeSegregation_ok F i1 i2 app r h
  rw [h5, h6, ← h1, ← h2]
  unfold shapleySpatial shapleyAttribute
  ring

/-- Witness for the amended C4 at a concrete decomposition. -/
theorem decompose_components_sum_witness :
    decomposeSegregation Fconst idxEx1 idxEx2 .composition = .ok decompEx ∧
    decompEx.cS + decompEx.cA = idxEx1.statistic - idxEx2.statistic :=
  ⟨by with_unfolding_all rfl,
   decompose_components_sum Fconst idxEx1 idxEx2 .composition decompEx
     (by with_unfolding_all rfl)⟩

/-- C6: decomposing two index results with different index formulas, or
comparing two index results of different classes, fails with the
contract-violation error for every random-draw oracle (so before any random
draw occurs and before any simulation work is done; the decomposition is
moreover independent of the formula environment `F`). -/
theorem mismatch_rejected_before_draws
    (F : ℕ → DataFrame → String → String → Except String ℚ)
    (i1 i2 : SegClass) (appD : CfApproach)
    (seg1 seg2 : SegClass) (iters : ℕ) (app2 : NullApproach2)
    (hfn : i1.funcId ≠ i2.funcId) (hcl : seg1.classId ≠ seg2.classId) :
    decomposeSegregation F i1 i2 appD = .error "Segregation indices must be of the same type" ∧
    ∀ rounds : List NumVal,
      compareSegregation seg1 seg2 iters app2 rounds = .error "seg_class_1 and seg_class_2 must be the same type/class." := by
  constructor
  · unfold decomposeSegregation
    rw [if_pos hfn]
  · intro rounds
    unfold compareSegregation
    rw [if_pos hcl]

/-- Witness for C6 at concrete mismatched index results. -/
theorem mismatch_rejected_before_draws_witness :
    idxEx1.funcId ≠ idxMis.funcId ∧ idxEx1.classId ≠ idxMis.classId ∧
    decomposeSegregation Fconst idxEx1 idxMis .composition = .error "Segregation indices must be of the same type" :=
  ⟨by decide, by decide,
   (mismatch_rejected_before_draws Fconst idxEx1 idxMis .composition idxEx1 idxMis 2
     .randomLabel (by decide) (by decide)).1⟩

/-- C9: the decomposition engine invokes the counterfactual generator with
the literal column names `'group_pop_var'` and `'total_pop_var'` regardless
of the group/total variable names configured on the two index results (the
run is invariant under reconfiguring them), so whenever either core frame
lacks those literal columns the decomposition fails with the pandas
`KeyError` even though both indices are of the same type. -/
theorem decompose_literal_column_names
    (F : ℕ → DataFrame → String → String → Except String ℚ)
    (i1 i2 : SegClass) (app : CfApproach)
    (hfn : i1.funcId = i2.funcId)
    (hmiss : i1.data.getCol "group_pop_var" = none ∨ i1.data.getCol "total_pop_var" = none ∨
             i2.data.getCol "group_pop_var" = none ∨ i2.data.getCol "total_pop_var" = none) :
    decomposeSegregation F i1 i2 app = .error "KeyError" ∧
    ∀ g t g2 t2 : String,
      decomposeSegregation F
        { i1 with groupPopVar := g, totalPopVar := t }
        { i2 with groupPopVar := g2, totalPopVar := t2 } app = .error "KeyError" := by
  have key : ∀ j1 j2 : SegClass, j1.funcId = j2.funcId → j1.data = i1.data → j2.data = i2.data →
      decomposeSegregation F j1 j2 app = .error "KeyError" := by
    intro j1 j2 hf hd1 hd2
    unfold decomposeSegregation
    rw [if_neg (by simp [hf])]
    rw [generateCounterfactual_missing j1.data j2.data _ _ _ _ app (by rw [hd1, hd2]; exact hmiss)]
  exact ⟨key i1 i2 hfn rfl rfl, fun g t g2 t2 => key _ _ hfn rfl rfl⟩

/-- Witness for C9 at a concrete index result without the literal columns. -/
theorem decompose_literal_column_names_witness :
    idxNoCols.data.getCol "group_pop_var" = none ∧
    decomposeSegregation Fconst idxNoCols idxNoCols .composition = .error "KeyError" :=
  ⟨by decide,
   (decompose_literal_column_names Fconst idxNoCols idxNoCols .composition rfl
     (Or.inl (by decide))).1⟩

/-- C10: in the multigroup dissimilarity index the NaN-handling step has no
effect: for every input frame, group list and every possible behaviour of
the `_nan_handle` helper, the function agrees extensionally with the same
computation with the NaN-handling call removed, because the filtered frame
is assigned but never used. -/
theorem multiDissim_nan_handling_dead (nanHandle : DataFrame → DataFrame)
    (data : DataFrame) (groups : List String) :
    multiDissim nanHandle data groups = multiDissimNoHandle data groups := rfl

/-- C2: the single-sample engine computes the one-tailed p-value as
`count(nullSample > pointEstimate) / requested iterations` and the
two-tailed p-value as `2 × min(count(null < point), count(null > point)) /
len(filtered nullSample)`; the two-sample engine always computes the
two-tailed form by the same formula. -/
theorem pvalue_formulas
    (seg : SegClass) (iters : ℕ) (app1 : NullApproach1) (twoTailed : Bool)
    (rounds : List NumVal) (r : InferResult)
    (h : inferSegregation seg iters app1 twoTailed rounds = .ok r)
    (hit : 0 < iters) (hne : filterFin rounds ≠ [])
    (seg1 seg2 : SegClass) (app2 : NullApproach2) (rounds2 : List NumVal)
    (r2 : CompareResult)
    (h2 : compareSegregation seg1 seg2 iters app2 rounds2 = .ok r2)
    (hne2 : filterFin rounds2 ≠ []) :
    (twoTailed = false →
      r.pValue = .fin ((countAbove (filterFin rounds) seg.statistic : ℚ) / (iters : ℚ))) ∧
    (twoTailed = true →
      r.pValue = .fin (2 * ((min (countAbove (filterFin rounds) seg.statistic) (countBelow (filterFin rounds) seg.statistic) : ℕ) : ℚ) / ((filterFin rounds).length : ℚ))) ∧
    r2.pValue = .fin (2 * ((min (countAbove (filterFin rounds2) r2.pointEstimate) (countBelow (filterFin rounds2) r2.pointEstimate) : ℕ) : ℚ) / ((filterFin rounds2).length : ℚ)) := by
  obtain ⟨-, -, -, -, hp⟩ := inferSegregation_ok seg iters app1 twoTailed rounds r h
  obtain ⟨-, hpe, -, -, -, -, hp2⟩ := compareSegregation_ok seg1 seg2 iters app2 rounds2 r2 h2
  have hiq : ((iters : ℚ)) ≠ 0 := by positivity
  have hlq : (((filterFin rounds).length : ℚ)) ≠ 0 := by
    have := List.length_pos.mpr hne
    positivity
  have hlq2 : (((filterFin rounds2).length : ℚ)) ≠ 0 := by
    have := List.length_pos.mpr hne2
    positivity
  refine ⟨?_, ?_, ?_⟩
  · intro ht
    subst ht
    rw [hp, if_neg (by simp)]
    unfold pvalOneTailed
    rw [NumVal.div_fin_fin _ _ hiq]
  · intro ht
    subst ht
    rw [hp, if_pos rfl]
    unfold pvalTwoTailed
    rw [NumVal.div_fin_fin _ _ hlq]
  · rw [hp2, ← hpe]
    unfold pvalTwoTailed
    rw [NumVal.div_fin_fin _ _ hlq2]

/-- Witness for C2 at concrete runs of both engines. -/
theorem pvalue_formulas_witness :
    inferSegregation idxEx1 2 .bootstrap true [.nan, .fin (3 / 5)] = .ok infEx ∧
    compareSegregation idxEx1 idxEx2 2 .randomLabel [.fin (1 / 10), .nan] = .ok compEx ∧
    (0 : ℕ) < 2 ∧ filterFin [NumVal.nan, NumVal.fin (3 / 5)] ≠ [] ∧
    filterFin [NumVal.fin (1 / 10), NumVal.nan] ≠ [] ∧
    compEx.pValue = .fin (2 * ((min (countAbove (filterFin [NumVal.fin (1 / 10), NumVal.nan]) compEx.pointEstimate) (countBelow (filterFin [NumVal.fin (1 / 10), NumVal.nan]) compEx.pointEstimate) : ℕ) : ℚ) / ((filterFin [NumVal.fin (1 / 10), NumVal.nan]).length : ℚ)) :=
  ⟨by with_unfolding_all rfl, by with_unfolding_all rfl, by decide,
   by simp [filterFin], by simp [filterFin],
   (pvalue_formulas idxEx1 2 .bootstrap true [.nan, .fin (3 / 5)] infEx
     (by with_unfolding_all rfl) (by decide) (by simp [filterFin])
     idxEx1 idxEx2 .randomLabel [.fin (1 / 10), .nan] compEx
     (by with_unfolding_all rfl) (by simp [filterFin])).2.2⟩

/-- C3 counterexample: with two requested rounds of which one is NaN and
the point estimate below the surviving round, the one-tailed p-value is
`1/2` — its denominator is the requested iteration count `2`, not the
surviving sample count `1` as the claim states (which would give `1`); and
when every round is degenerate the engine completes normally, returning a
NaN p-value instead of raising a fatal error. -/
theorem inference_degeneracy_counterexample :
    inferSegregation idxEx1 2 .bootstrap false [NumVal.nan, NumVal.fin 1] =
      .ok (exGet junkInfer (inferSegregation idxEx1 2 .bootstrap false [NumVal.nan, NumVal.fin 1])) ∧
    (exGet junkInfer (inferSegregation idxEx1 2 .bootstrap false [NumVal.nan, NumVal.fin 1])).estSim = [1] ∧
    (exGet junkInfer (inferSegregation idxEx1 2 .bootstrap false [NumVal.nan, NumVal.fin 1])).pValue = .fin (1 / 2) ∧
    NumVal.fin (1 / 2) ≠ NumVal.fin (1 / 1) ∧
    inferSegregation idxEx1 2 .bootstrap true [NumVal.nan, NumVal.pinf] =
      .ok (exGet junkInfer (inferSegregation idxEx1 2 .bootstrap true [NumVal.nan, NumVal.pinf])) ∧
    (exGet junkInfer (inferSegregation idxEx1 2 .bootstrap true [NumVal.nan, NumVal.pinf])).estSim = ([] : List ℚ) ∧
    (exGet junkInfer (inferSegregation idxEx1 2 .bootstrap true [NumVal.nan, NumVal.pinf])).pValue = NumVal.nan :=
  ⟨by with_unfolding_all rfl, by with_unfolding_all rfl, by with_unfolding_all rfl,
   fun hc => absurd (NumVal.fin.inj hc) (by norm_num),
   by with_unfolding_all rfl, by with_unfolding_all rfl, by with_unfolding_all rfl⟩

/-- C3 amended: in both engines every NaN/infinite round is dropped from
the null sample before the p-value is computed, exactly one aggregate
warning is raised when any such round exists (never one per round), the
two-tailed p-value denominator uses the surviving sample count while the
one-tailed denominator is the requested iteration count, and if every round
is degenerate the two-tailed p-value computation divides zero by zero and
yields NaN without raising (the one-tailed p-value is then `0`). -/
theorem degeneracy_handling
    (seg : SegClass) (iters : ℕ) (app1 : NullApproach1) (twoTailed : Bool)
    (rounds : List NumVal) (r : InferResult)
    (h : inferSegregation seg iters app1 twoTailed rounds = .ok r)
    (hit : 0 < iters)
    (seg1 seg2 : SegClass) (app2 : NullApproach2) (rounds2 : List NumVal)
    (r2 : CompareResult)
    (h2 : compareSegregation seg1 seg2 iters app2 rounds2 = .ok r2) :
    r.estSim = filterFin rounds ∧
    r.estSim.length + (rounds.filter fun x => !x.isFin).length = rounds.length ∧
    r.warningsCount = (if rounds.any fun x => !x.isFin then 1 else 0) ∧
    r.warningsCount ≤ 1 ∧
    (twoTailed = true → r.pValue = pvalTwoTailed (filterFin rounds) seg.statistic) ∧
    (filterFin rounds = [] →
      (twoTailed = true → r.pValue = NumVal.nan) ∧
      (twoTailed = false → r.pValue = .fin 0)) ∧
    r2.estSim = filterFin rounds2 ∧
    r2.warningsCount ≤ 1 ∧
    (filterFin rounds2 = [] → r2.pValue = NumVal.nan) := by
  obtain ⟨hs, -, hw, -, hp⟩ := inferSegregation_ok seg iters app1 twoTailed rounds r h
  obtain ⟨-, -, hs2, hw2, -, -, hp2⟩ := compareSegregation_ok seg1 seg2 iters app2 rounds2 r2 h2
  refine ⟨hs, ?_, hw, ?_, ?_, ?_, hs2, ?_, ?_⟩
  · rw [hs]
    exact filterFin_length_add rounds
  · rw [hw]
    split <;> omega
  · intro ht
    subst ht
    rw [hp, if_pos rfl]
  · intro hempty
    constructor
    · intro ht
      subst ht
      rw [hp, if_pos rfl, hempty]
      exact pvalTwoTailed_nil _
    · intro ht
      subst ht
      rw [hp, if_neg (by simp), hempty]
      exact pvalOneTailed_nil _ _ (by omega)
  · rw [hw2]
    split <;> omega
  · intro hempty
    rw [hp2, hempty]
    exact pvalTwoTailed_nil _

/-- Witness for the amended C3 at concrete runs with a degenerate round. -/
theorem degeneracy_handling_witness :
    inferSegregation idxEx1 2 .bootstrap true [.nan, .fin (3 / 5)] = .ok infEx ∧
    compareSegregation idxEx1 idxEx2 2 .randomLabel [.fin (1 / 10), .nan] = .ok compEx ∧
    (0 : ℕ) < 2 ∧
    infEx.estSim = filterFin [.nan, .fin (3 / 5)] :=
  ⟨by with_unfolding_all rfl, by with_unfolding_all rfl, by decide,
   (degeneracy_handling idxEx1 2 .bootstrap true [.nan, .fin (3 / 5)] infEx
     (by with_unfolding_all rfl) (by decide)
     idxEx1 idxEx2 .randomLabel [.fin (1 / 10), .nan] compEx
     (by with_unfolding_all rfl)).1⟩

/-- C5: for every valid run of either engine (any supported null approach,
any tail choice, a non-empty surviving null sample), the returned p-value
is a finite rational between 0 and 1 inclusive. -/
theorem pvalue_bounds
    (seg : SegClass) (iters : ℕ) (app1 : NullApproach1) (twoTailed : Bool)
    (rounds : List NumVal) (r : InferResult)
    (h : inferSegregation seg iters app1 twoTailed rounds = .ok r)
    (hit : 0 < iters) (hlen : rounds.length = iters) (hne : filterFin rounds ≠ [])
    (seg1 seg2 : SegClass) (app2 : NullApproach2) (rounds2 : List NumVal)
    (r2 : CompareResult)
    (h2 : compareSegregation seg1 seg2 iters app2 rounds2 = .ok r2)
    (hne2 : filterFin rounds2 ≠ []) :
    (∃ q, r.pValue = .fin q ∧ 0 ≤ q ∧ q ≤ 1) ∧
    (∃ q, r2.pValue = .fin q ∧ 0 ≤ q ∧ q ≤ 1) := by
  obtain ⟨-, -, -, -, hp⟩ := inferSegregation_ok seg iters app1 twoTailed rounds r h
  obtain ⟨-, -, -, -, -, -, hp2⟩ := compareSegregation_ok seg1 seg2 iters app2 rounds2 r2 h2
  constructor
  · rw [hp]
    cases twoTailed with
    | false =>
      rw [if_neg (by simp)]
      exact pvalOneTailed_bounds _ _ _ hit (hlen ▸ filterFin_length_le rounds)
    | true =>
      rw [if_pos rfl]
      exact pvalTwoTailed_bounds _ _ hne
  · rw [hp2]
    exact pvalTwoTailed_bounds _ _ hne2

/-- Witness for C5 at concrete runs of both engines. -/
theorem pvalue_bounds_witness :
    inferSegregation idxEx1 2 .bootstrap true [.nan, .fin (3 / 5)] = .ok infEx ∧
    compareSegregation idxEx1 idxEx2 2 .randomLabel [.fin (1 / 10), .nan] = .ok compEx ∧
    (0 : ℕ) < 2 ∧ ([NumVal.nan, NumVal.fin (3 / 5)].length = 2) ∧
    (∃ q, compEx.pValue = .fin q ∧ 0 ≤ q ∧ q ≤ 1) :=
  ⟨by with_unfolding_all rfl, by with_unfolding_all rfl, by decide, by decide,
   (pvalue_bounds idxEx1 2 .bootstrap true [.nan, .fin (3 / 5)] infEx
     (by with_unfolding_all rfl) (by decide) (by decide) (by simp [filterFin])
     idxEx1 idxEx2 .randomLabel [.fin (1 / 10), .nan] compEx
     (by with_unfolding_all rfl) (by simp [filterFin])).2⟩

/-- C7: for multigroup index results the single-sample engine raises the
not-implemented failure exactly for the null approaches other than
bootstrap and evenness, and the two-sample engine raises it exactly for the
`counterfactual_*` approaches; bootstrap, evenness and `random_label`
never produce that failure on multigroup inputs. -/
theorem multigroup_support_matrix
    (seg : SegClass) (iters : ℕ) (tt : Bool) (rounds : List NumVal)
    (app1 : NullApproach1)
    (seg1 seg2 : SegClass) (app2 : NullApproach2)
    (hm : seg.isMulti = true) (hm1 : seg1.isMulti = true)
    (hcl : seg1.classId = seg2.classId) :
    (inferSegregation seg iters app1 tt rounds = .error "Not implemented for MultiGroup indexes." ↔
      (app1 = .systematic ∨ app1 = .permutation ∨
       app1 = .systematicPermutation ∨ app1 = .evenPermutation)) ∧
    (compareSegregation seg1 seg2 iters app2 rounds = .error "Not implemented for MultiGroup indexes." ↔
      (app2 = .cfComposition ∨ app2 = .cfShare ∨ app2 = .cfDualComposition)) := by
  have hnotne : ¬ seg1.classId ≠ seg2.classId := by simp [hcl]
  constructor
  · cases app1 <;> simp [inferSegregation, inferDispatch, hm, Except.map]
  · cases app2 with
    | randomLabel =>
      constructor
      · intro heq
        exfalso
        unfold compareSegregation at heq
        rw [if_neg hnotne] at heq
        simp only [] at heq
        cases hd : compareDispatch seg1 seg2 .randomLabel with
        | ok w =>
          rw [hd] at heq
          simp [Except.map] at heq
        | error e =>
          rw [hd] at heq
          simp only [Except.map] at heq
          have he : e = "Not implemented for MultiGroup indexes." := by
            simpa using heq
          unfold compareDispatch at hd
          rw [if_pos hm1] at hd
          cases hx : randomLabelMulti seg1 seg2 with
          | ok w =>
            rw [hx] at hd
            simp [Except.map] at hd
          | error e2 =>
            rw [hx] at hd
            simp only [Except.map] at hd
            have he2 : e2 = e := by simpa using hd
            rcases randomLabelMulti_error seg1 seg2 e2 hx with hk | hk <;>
              rw [he2, he] at hk <;> exact absurd hk (by decide)
      · intro habs
        rcases habs with hx | hx | hx <;> exact absurd hx (by simp)
    | cfComposition =>
      unfold compareSegregation
      rw [if_neg hnotne,
        compareDispatch_multi_cf seg1 seg2 hm1 _ (Or.inl rfl)]
      simp [Except.map]
    | cfShare =>
      unfold compareSegregation
      rw [if_neg hnotne,
        compareDispatch_multi_cf seg1 seg2 hm1 _ (Or.inr (Or.inl rfl))]
      simp [Except.map]
    | cfDualComposition =>
      unfold compareSegregation
      rw [if_neg hnotne,
        compareDispatch_multi_cf seg1 seg2 hm1 _ (Or.inr (Or.inr rfl))]
      simp [Except.map]

/-- Witness for C7 at a concrete multigroup index result. -/
theorem multigroup_support_matrix_witness :
    segMG.isMulti = true ∧
    inferSegregation segMG 2 .systematic false [] = .error "Not implemented for MultiGroup indexes." :=
  ⟨rfl,
   (multigroup_support_matrix segMG 2 false [] .systematic segMG segMG .cfComposition
     rfl rfl rfl).1.mpr (Or.inl rfl)⟩

/-- C8: no engine mutates the caller-supplied data: after any successful
run of the single-sample engine, the two-sample engine or the
decomposition, the caller-visible core frames equal the original inputs,
because each engine copies the data before modifying population columns. -/
theorem no_caller_mutation
    (seg : SegClass) (iters : ℕ) (app1 : NullApproach1) (tt : Bool)
    (rounds : List NumVal) (r : InferResult)
    (h : inferSegregation seg iters app1 tt rounds = .ok r)
    (seg1 seg2 : SegClass) (app2 : NullApproach2) (rounds2 : List NumVal)
    (r2 : CompareResult)
    (h2 : compareSegregation seg1 seg2 iters app2 rounds2 = .ok r2)
    (F : ℕ → DataFrame → String → String → Except String ℚ)
    (i1 i2 : SegClass) (appD : CfApproach) (rd : DecompResult)
    (hd : decomposeSegregation F i1 i2 appD = .ok rd) :
    r.callerData = seg.data ∧
    r2.callerData1 = seg1.data ∧ r2.callerData2 = seg2.data ∧
    rd.df1 = i1.data ∧ rd.df2 = i2.data := by
  obtain ⟨-, -, -, hc, -⟩ := inferSegregation_ok seg iters app1 tt rounds r h
  obtain ⟨-, -, -, -, hc1, hc2, -⟩ := compareSegregation_ok seg1 seg2 iters app2 rounds2 r2 h2
  obtain ⟨-, -, -, -, -, -, -, hd1, hd2⟩ := decomposeSegregation_ok F i1 i2 appD rd hd
  exact ⟨hc, hc1, hc2, hd1, hd2⟩

/-- Witness for C8 at concrete runs of all three engines. -/
theorem no_caller_mutation_witness :
    inferSegregation idxEx1 2 .bootstrap true [.nan, .fin (3 / 5)] = .ok infEx ∧
    compareSegregation idxEx1 idxEx2 2 .randomLabel [.fin (1 / 10), .nan] = .ok compEx ∧
    decomposeSegregation Fconst idxEx1 idxEx2 .composition = .ok decompEx ∧
    infEx.callerData = idxEx1.data :=
  ⟨by with_unfolding_all rfl, by with_unfolding_all rfl, by with_unfolding_all rfl,
   (no_caller_mutation idxEx1 2 .bootstrap true [.nan, .fin (3 / 5)] infEx
     (by with_unfolding_all rfl)
     idxEx1 idxEx2 .randomLabel [.fin (1 / 10), .nan] compEx
     (by with_unfolding_all rfl)
     Fconst idxEx1 idxEx2 .composition decompEx
     (by with_unfolding_all rfl)).1⟩
